import Mathlib

set_option maxRecDepth 40000
set_option maxHeartbeats 1000000

/-!
Shallow embedding of the resumable paraphrase-generation pipeline
(files generate_paraphrases.py and merge_results.py): the Python
string primitives the code uses, the response parser and retry loop of
generate_questions_with_gpt5, the per-item orchestration of
run_paraphrase_generation, and the merge/validate stage of
merge_results.py.
-/

namespace Pipeline

/-!
### Python string primitives

Methods strip, lstrip and split modelled on `List Char`, with the
whitespace characters Python strips in the ASCII range.
-/

def pyWhitespace : List Char := [' ', '\t', '\n', '\x0b', '\x0c', '\r']

def pyStripList (cs : List Char) : List Char :=
  ((cs.dropWhile (· ∈ pyWhitespace)).reverse.dropWhile (· ∈ pyWhitespace)).reverse

/-- Python strip: remove leading and trailing whitespace. -/
def pyStrip (s : String) : String := (pyStripList s.data).asString

/-- Python split on one character: split on every occurrence, keeping
empty pieces. -/
def splitOnChar (c : Char) : List Char → List (List Char)
  | [] => [[]]
  | a :: rest =>
    let r := splitOnChar c rest
    if a = c then [] :: r
    else
      match r with
      | [] => [[a]]
      | h :: t => (a :: h) :: t

def digitChars : List Char := ['0', '1', '2', '3', '4', '5', '6', '7', '8', '9']

/-- The character set of the second lstrip call in the source
(line 200): dot, space, close parenthesis, hyphen. -/
def enumChars : List Char := ['.', ' ', ')', '-']

/-!
### Generation Client (generate_questions_with_gpt5)
-/

/-- The per-line parsing loop of generate_questions_with_gpt5 (source
lines 193–203): split the response text on newlines; for each line,
strip it and drop it if blank; then lstrip all leading digit
characters, lstrip all leading dot/space/paren/hyphen characters,
strip again, and keep the line if still non-empty. -/
def parse_questions (s : String) : List String :=
  (splitOnChar '\n' s.data).filterMap fun lineCs =>
    let line1 := pyStripList lineCs
    if line1 = [] then none
    else
      let line2 := pyStripList ((line1.dropWhile (· ∈ digitChars)).dropWhile (· ∈ enumChars))
      if line2 = [] then none else some line2.asString

/-- Modelled from the spec (for comparison with `parse_questions`, the
parser of the source): remove a leading enumeration marker — one or
more digits followed by a dot, close parenthesis or hyphen — and keep
the digits of any line whose digits are not followed by one of those
three characters. -/
def stripEnumMarker (cs : List Char) : List Char :=
  let ds := cs.takeWhile (· ∈ digitChars)
  let rest := cs.dropWhile (· ∈ digitChars)
  match rest with
  | p :: tl => if ds ≠ [] ∧ (p = '.' ∨ p = ')' ∨ p = '-') then tl else cs
  | [] => cs

/-- Modelled from the spec: the parse described by the specification —
split on line breaks, discard blank lines, strip a leading enumeration
marker, trim whitespace. -/
def parse_questions_spec (s : String) : List String :=
  (splitOnChar '\n' s.data).filterMap fun lineCs =>
    let line1 := pyStripList lineCs
    if line1 = [] then none
    else some (pyStripList (stripEnumMarker line1)).asString

/-- The generation target hard-coded throughout
generate_questions_with_gpt5. -/
def targetCount : Nat := 200

/-- One attempt of the retry loop (source lines 175–222).  The external
service is abstracted as an optional response string: `none` models a
raised exception, `some s` a returned output text.  The attempt
succeeds iff the stripped text is non-empty and parses to at least 200
entries, in which case the first 200 parsed entries are returned. -/
def attemptResult (resp : Option String) : Option (List String) :=
  match resp with
  | none => none
  | some s =>
    let t := pyStrip s
    if t = "" then none
    else
      let qs := parse_questions t
      if qs.length < targetCount then none else some (qs.take targetCount)

/-- The bounded retry loop: `oracle a` is the behaviour of the service
on attempt number `a`; the result pairs the number of requests issued
with the final outcome.  A failed attempt that is not the last
continues to the next attempt; exhausting all attempts yields `none`,
exactly as the return-None paths of the source. -/
def generate_attempts (oracle : Nat → Option String) (attempt : Nat) :
    Nat → Nat × Option (List String)
  | 0 => (0, none)
  | r + 1 =>
    match attemptResult (oracle attempt) with
    | some qs => (1, some qs)
    | none =>
      let next := generate_attempts oracle (attempt + 1) r
      (next.1 + 1, next.2)

/-- Function generate_questions_with_gpt5 as the caller sees it: the
outcome of the retry loop, `none` being the failure sentinel returned
after max_retries exhausted attempts. -/
def generate_questions_with_gpt5 (oracle : Nat → Option String)
    (max_retries : Nat := 3) : Option (List String) :=
  (generate_attempts oracle 0 max_retries).2

/-- Number of requests issued to the service by one call of
generate_questions_with_gpt5. -/
def generate_request_count (oracle : Nat → Option String)
    (max_retries : Nat := 3) : Nat :=
  (generate_attempts oracle 0 max_retries).1

/-!
### Example Store (get_unique_tags_from_questions, load_answers_lookup,
load_example_questions, get_random_examples)
-/

/-- One row of the examples source CSV (question and tag columns). -/
structure QRow where
  question : String
  tag : String
deriving DecidableEq

/-- One row of the answers source CSV (tag and answer columns). -/
structure ARow where
  tag : String
  answer : String
deriving DecidableEq

/-- First-occurrence deduplication, with the already-seen elements as
an accumulator. -/
def pyDedupFirstAux {α : Type} [DecidableEq α] (seen : List α) : List α → List α
  | [] => []
  | a :: l => if a ∈ seen then pyDedupFirstAux seen l else a :: pyDedupFirstAux (a :: seen) l

/-- First-occurrence deduplication: the element order a Python Counter
or insertion-ordered dict iterates in.  Also stands for the set built
by get_unique_tags_from_questions (a Python set has no specified
order; the subsequent sort makes the choice immaterial up to
case-insensitive ties). -/
def pyDedupFirst {α : Type} [DecidableEq α] (l : List α) : List α :=
  pyDedupFirstAux [] l

/-- Lower-case one ASCII character, as Python lower does. -/
def pyLowerChar (c : Char) : Char :=
  if 'A' ≤ c ∧ c ≤ 'Z' then Char.ofNat (c.toNat + 32) else c

/-- Lexicographic order on character lists (string comparison). -/
def charListLe : List Char → List Char → Bool
  | [], _ => true
  | _ :: _, [] => false
  | a :: as, b :: bs => if a < b then true else if b < a then false else charListLe as bs

/-- The comparison used by the sort of the work list: lower-cased
lexicographic string order (sorted with key str.lower). -/
def lowerLe (a b : String) : Bool :=
  charListLe (a.data.map pyLowerChar) (b.data.map pyLowerChar)

/-- Insertion step of the case-insensitive sort. -/
def insertSorted (a : String) : List String → List String
  | [] => [a]
  | b :: l => if lowerLe a b then a :: b :: l else b :: insertSorted a l

/-- Sort ascending by lower-cased form (sorted with key str.lower). -/
def sortCaseInsensitive (l : List String) : List String := l.foldr insertSorted []

/-- Function get_unique_tags_from_questions: strip the tag of each row,
drop empty tags and the `fraction` sentinel, deduplicate, sort
case-insensitively.  This list is the enumerated work list. -/
def get_unique_tags_from_questions (rows : List QRow) : List String :=
  sortCaseInsensitive (pyDedupFirst
    ((rows.map fun r => pyStrip r.tag).filter fun t => t ≠ "" ∧ t ≠ "fraction"))

/-- Function load_answers_lookup: the tag-to-answer dict built from the
answers rows; a later row for the same tag overwrites an earlier
one. -/
def load_answers_lookup (rows : List ARow) : String → Option String :=
  fun t => ((rows.filter fun r => r.tag = t).getLast?).map fun r => r.answer

/-- Function load_example_questions: tag to stripped example questions,
keyed by the RAW (unstripped) tag of each row; rows with the excluded
`fraction` tag or a blank question are dropped.  A tag absent from the
dict is the empty list (values are never empty, so this is faithful to
the membership test of the source). -/
def load_example_questions (rows : List QRow) : String → List String :=
  fun t =>
    ((rows.filter fun r => r.tag ≠ "fraction" ∧ pyStrip r.question ≠ "" ∧ r.tag = t).map
      fun r => pyStrip r.question)

/-- Function get_random_examples: empty for an unknown tag; the whole
list when it has at most num_examples entries; otherwise a random
sample, abstracted as the function `pick`. -/
def get_random_examples (pick : List String → List String)
    (tag_questions : String → List String) (tag_name : String)
    (num_examples : Nat := 30) : List String :=
  let available := tag_questions tag_name
  if available = [] then []
  else if available.length ≤ num_examples then available
  else pick available

/-!
### Per-Item Writer (save_individual_csv)
-/

/-- Function save_individual_csv: the rows written to the per-tag
artifact — a header row followed by one question/tag row per generated
question. -/
def save_individual_csv (tag_name : String) (generated_questions : List String) :
    List (List String) :=
  ["question", "tag"] :: generated_questions.map fun q => [q, tag_name]

/-!
### Pipeline Orchestrator (run_paraphrase_generation)
-/

inductive Outcome where
  | success
  | failed
  | skipped
deriving DecidableEq

/-- What processing one work item produced: its outcome, the artifact
write (if any), and whether the Generation Client was invoked. -/
structure ItemResult where
  outcome : Outcome
  write : Option (String × List (List String))
  genCalled : Bool
deriving DecidableEq

/-- The body of the per-tag loop (source lines 323–380) for one tag:
skip when the tag has no answer; skip when it has no examples;
otherwise call the Generation Client and, exactly when it returned a
non-empty list of length 200, write the artifact. -/
def processItem (answers : String → Option String)
    (tag_questions : String → List String) (pick : List String → List String)
    (oracle : Nat → Option String) (tag_name : String) : ItemResult :=
  match answers tag_name with
  | none => ⟨.skipped, none, false⟩
  | some _ =>
    let examples := get_random_examples pick tag_questions tag_name
    if examples = [] then ⟨.skipped, none, false⟩
    else
      match generate_questions_with_gpt5 oracle with
      | some l =>
        if l ≠ [] ∧ l.length = targetCount then
          ⟨.success, some (tag_name, save_individual_csv tag_name l), true⟩
        else ⟨.failed, none, true⟩
      | none => ⟨.failed, none, true⟩

/-- The observable state of one run: the progress-file value, the
artifact writes, the ordinals at which the Generation Client was
invoked, the ordinals processed, and the summary counters. -/
structure RunState where
  checkpoint : Int
  writes : List (String × List (List String))
  genCalls : List Nat
  processed : List Nat
  success : Nat
  failed : Nat
  skipped : Nat
deriving DecidableEq

def initState (cp : Int) : RunState := ⟨cp, [], [], [], 0, 0, 0⟩

/-- Record the processing of one item at ordinal `i`: every branch of
the loop ends with update_progress(i), so the checkpoint becomes `i`
unconditionally. -/
def applyItem (i : Nat) (r : ItemResult) (st : RunState) : RunState where
  checkpoint := (i : Int)
  writes := st.writes ++ (match r.write with | some w => [w] | none => [])
  genCalls := st.genCalls ++ (if r.genCalled then [i] else [])
  processed := st.processed ++ [i]
  success := st.success + (if r.outcome = .success then 1 else 0)
  failed := st.failed + (if r.outcome = .failed then 1 else 0)
  skipped := st.skipped + (if r.outcome = .skipped then 1 else 0)

/-- The loop over range(start_index, total_tags): process `n`
consecutive ordinals starting at `start`.  Here `oracle i a` is the
response of the service to attempt `a` of the item at ordinal `i`. -/
def processFrom (answers : String → Option String)
    (tag_questions : String → List String) (tags : List String)
    (pick : List String → List String) (oracle : Nat → Nat → Option String) :
    Nat → Nat → RunState → RunState
  | _, 0, st => st
  | start, n + 1, st =>
    let r := processItem answers tag_questions pick (oracle start) (tags.getD start "")
    processFrom answers tag_questions tags pick oracle (start + 1) n (applyItem start r st)

/-- The resume computation of source lines 304–315: start_index is the
stored value plus one, reset to index 0 and progress -1 when
start_index is at least total_tags.  Returns the start index and the
progress value in effect when the loop begins. -/
def computeStartIndex (stored : Int) (total : Nat) : Nat × Int :=
  if stored + 1 ≥ (total : Int) then (0, -1) else ((stored + 1).toNat, stored)

/-- The inputs of one run: the two source CSVs, the external service
(per ordinal and attempt), and the random-sample choice. -/
structure Env where
  qrows : List QRow
  arows : List ARow
  oracle : Nat → Nat → Option String
  pick : List String → List String

/-- Function run_paraphrase_generation (full mode): load the example
index, the work list and the answers dict from the CSVs, derive the
resume index from the stored progress value, and process the remaining
ordinals in order. -/
def run_paraphrase_generation (env : Env) (stored : Int) : RunState :=
  let tag_questions := load_example_questions env.qrows
  let tags := get_unique_tags_from_questions env.qrows
  let answers := load_answers_lookup env.arows
  let total := tags.length
  let s := computeStartIndex stored total
  processFrom answers tag_questions tags env.pick env.oracle s.1 (total - s.1)
    (initState s.2)

/-!
### Merge & Validate (merge_results.py)
-/

/-- A data row of the combined output: question and tag. -/
abbrev Row := String × String

/-- Function merge_csv_files: concatenate the data rows of the artifact
files in order (empty files only trigger a warning), returning the
merged rows and the count the function reports. -/
def merge_csv_files (files : List (List Row)) : List Row × Nat :=
  let merged := files.foldl (fun acc rows => if rows ≠ [] then acc ++ rows else acc) []
  (merged, merged.length)

/-- The hard-coded per-tag occurrence count validate_merged_file checks
every tag against (source line 94). -/
def validatePerTagCount : Nat := 10

/-- What validate_merged_file reports. -/
structure ValidationReport where
  actual_count : Nat
  row_count_ok : Bool
  tags_with_wrong_count : List String
  invalid_count : Nat
deriving DecidableEq

/-- Function validate_merged_file: re-read the combined output
(modelled as the row list), compare the row count with expected_count,
list the tags whose occurrence count differs from the hard-coded 10
(in Counter insertion order, i.e. first-occurrence order), and count
the rows with an empty question or tag. -/
def validate_merged_file (rows : List Row) (expected_count : Nat) : ValidationReport where
  actual_count := rows.length
  row_count_ok := rows.length = expected_count
  tags_with_wrong_count :=
    (pyDedupFirst (rows.map fun r => r.2)).filter fun t =>
      (rows.map fun r => r.2).count t ≠ validatePerTagCount
  invalid_count := (rows.filter fun r => r.1 = "" ∨ r.2 = "").length

/-- Function run_merge: `none` when there are no artifact files;
otherwise merge, then validate the output against the count the merge
itself just produced. -/
def run_merge (files : List (List Row)) : Option (List Row × ValidationReport) :=
  if files = [] then none
  else
    let m := merge_csv_files files
    some (m.1, validate_merged_file m.1 m.2)

/-- Rows of one well-formed artifact for `tag`: the question text of
row `j` is `qf j`. -/
def artifactRows (qf : Nat → String) (tag : String) (n : Nat) : List Row :=
  (List.range n).map fun j => (qf j, tag)

/-!
### Lemmas about the Generation Client
-/

theorem attemptResult_short {s : String}
    (h : (parse_questions (pyStrip s)).length < targetCount) :
    attemptResult (some s) = none := by
  unfold attemptResult
  by_cases h0 : pyStrip s = ""
  · simp [h0]
  · simp [h0, h]

theorem attemptResult_long {s : String} (h1 : pyStrip s ≠ "")
    (h2 : targetCount ≤ (parse_questions (pyStrip s)).length) :
    attemptResult (some s) = some ((parse_questions (pyStrip s)).take targetCount) := by
  unfold attemptResult
  simp [h1, Nat.not_lt.mpr h2]

theorem generate_attempts_all_short (oracle : Nat → Option String) :
    ∀ (r a : Nat),
      (∀ i, a ≤ i → i < a + r → ∃ s, oracle i = some s ∧
        (parse_questions (pyStrip s)).length < targetCount) →
      generate_attempts oracle a r = (r, none) := by
  intro r
  induction r with
  | zero => intro a _; rfl
  | succ n ih =>
    intro a h
    obtain ⟨s, hs, hshort⟩ := h a (Nat.le_refl a) (by omega)
    have hrec := ih (a + 1) (fun i hi1 hi2 => h i (by omega) (by omega))
    simp only [generate_attempts, hs, attemptResult_short hshort, hrec]

theorem generate_attempts_some_length (oracle : Nat → Option String) :
    ∀ (r a : Nat) (l : List String),
      (generate_attempts oracle a r).2 = some l → l.length = targetCount := by
  intro r
  induction r with
  | zero => intro a l h; simp [generate_attempts] at h
  | succ n ih =>
    intro a l h
    simp only [generate_attempts] at h
    cases hA : attemptResult (oracle a) with
    | none => rw [hA] at h; simp at h; exact ih (a + 1) l h
    | some qs =>
      rw [hA] at h
      simp at h
      subst h
      cases hO : oracle a with
      | none => rw [hO] at hA; simp [attemptResult] at hA
      | some s =>
        rw [hO] at hA
        unfold attemptResult at hA
        by_cases h0 : pyStrip s = ""
        · simp [h0] at hA
        · by_cases h2 : (parse_questions (pyStrip s)).length < targetCount
          · simp [h0, h2] at hA
          · simp [h0, h2] at hA
            rw [← hA]
            simp [List.length_take]
            omega

/-!
### Claim theorems: Generation Client
-/

/-- C3: if every request attempt yields a response parsing to fewer
than 200 entries, the client issues exactly max_attempts requests,
then returns the `none` failure sentinel — which is distinguishable
from any successful result, in particular from the empty one. -/
theorem generation_retry_bound (oracle : Nat → Option String) (max_attempts : Nat)
    (h : ∀ i, ∃ s, oracle i = some s ∧
      (parse_questions (pyStrip s)).length < targetCount) :
    generate_request_count oracle max_attempts = max_attempts ∧
    generate_questions_with_gpt5 oracle max_attempts = none ∧
    ∀ qs : List String, generate_questions_with_gpt5 oracle max_attempts ≠ some qs := by
  have hall := generate_attempts_all_short oracle max_attempts 0 (fun i _ _ => h i)
  unfold generate_request_count generate_questions_with_gpt5
  rw [hall]
  exact ⟨rfl, rfl, fun qs hq => by cases hq⟩

theorem generation_retry_bound_witness :
    (∀ i : Nat, ∃ s, (fun _ : Nat => some "x") i = some s ∧
      (parse_questions (pyStrip s)).length < targetCount) ∧
    generate_request_count (fun _ : Nat => some "x") 3 = 3 ∧
    generate_questions_with_gpt5 (fun _ : Nat => some "x") 3 = none := by
  have h : ∀ i : Nat, ∃ s, (fun _ : Nat => some "x") i = some s ∧
      (parse_questions (pyStrip s)).length < targetCount :=
    fun _ => ⟨"x", rfl, by decide⟩
  exact ⟨h, (generation_retry_bound (fun _ => some "x") 3 h).1,
    (generation_retry_bound (fun _ => some "x") 3 h).2.1⟩

/-- C8 (counterexample): the source strips ALL leading digits of a
line, even when they are not followed by a dot, close parenthesis or
hyphen; on a response whose first line is "1x" the code keeps "x"
where the parse that the claim describes keeps "1x", so generate does
NOT return the first 200 entries of that parse. -/
theorem generation_parse_keeps_digits_counterexample :
    generate_questions_with_gpt5
        (fun _ => some (String.intercalate "\n" ("1x" :: List.replicate 199 "x"))) 3 ≠
      some ((parse_questions_spec
        (String.intercalate "\n" ("1x" :: List.replicate 199 "x"))).take targetCount) := by
  decide

/-- C8 (amended): for every response string whose CODE parse — strip
the line, drop it if blank, strip all leading digits, strip all
leading dot/space/paren/hyphen characters, strip again, drop if now
blank — yields at least 200 entries, generate succeeds on the first
attempt (one request) and returns exactly the first 200 entries of
that parse in order. -/
theorem generation_returns_first_200 (oracle : Nat → Option String)
    (s : String) (h0 : oracle 0 = some s) (h1 : pyStrip s ≠ "")
    (h2 : targetCount ≤ (parse_questions (pyStrip s)).length) :
    generate_questions_with_gpt5 oracle 3 =
      some ((parse_questions (pyStrip s)).take targetCount) ∧
    generate_request_count oracle 3 = 1 := by
  have ha : attemptResult (oracle 0) =
      some ((parse_questions (pyStrip s)).take targetCount) := by
    rw [h0]; exact attemptResult_long h1 h2
  constructor
  · unfold generate_questions_with_gpt5 generate_attempts
    rw [ha]
  · unfold generate_request_count generate_attempts
    rw [ha]

theorem generation_returns_first_200_witness :
    ((fun _ : Nat => some (String.intercalate "\n" (List.replicate 200 "x"))) 0 =
      some (String.intercalate "\n" (List.replicate 200 "x"))) ∧
    pyStrip (String.intercalate "\n" (List.replicate 200 "x")) ≠ "" ∧
    targetCount ≤ (parse_questions
      (pyStrip (String.intercalate "\n" (List.replicate 200 "x")))).length ∧
    generate_questions_with_gpt5
        (fun _ : Nat => some (String.intercalate "\n" (List.replicate 200 "x"))) 3 =
      some ((parse_questions
        (pyStrip (String.intercalate "\n" (List.replicate 200 "x")))).take targetCount) := by
  refine ⟨rfl, by decide, by decide, ?_⟩
  exact (generation_returns_first_200 _ _ rfl (by decide) (by decide)).1

/-!
### Lemmas about the Orchestrator
-/

theorem processFrom_processed (answers : String → Option String)
    (tq : String → List String) (tags : List String)
    (pick : List String → List String) (oracle : Nat → Nat → Option String) :
    ∀ (n start : Nat) (st : RunState),
      (processFrom answers tq tags pick oracle start n st).processed
        = st.processed ++ List.range' start n := by
  intro n
  induction n with
  | zero => intro start st; simp [processFrom]
  | succ m ih =>
    intro start st
    simp only [processFrom]
    rw [ih]
    simp [applyItem, List.range'_succ]

theorem processFrom_genCalls (answers : String → Option String)
    (tq : String → List String) (tags : List String)
    (pick : List String → List String) (oracle : Nat → Nat → Option String) :
    ∀ (n start : Nat) (st : RunState) (x : Nat),
      x ∈ (processFrom answers tq tags pick oracle start n st).genCalls →
      x ∈ st.genCalls ∨ start ≤ x := by
  intro n
  induction n with
  | zero => intro start st x hx; exact Or.inl hx
  | succ m ih =>
    intro start st x hx
    simp only [processFrom] at hx
    rcases ih (start + 1) _ x hx with h | h
    · simp only [applyItem, List.mem_append] at h
      rcases h with h | h
      · exact Or.inl h
      · right
        split at h
        · simp at h; omega
        · simp at h
    · exact Or.inr (by omega)

theorem processFrom_checkpoint (answers : String → Option String)
    (tq : String → List String) (tags : List String)
    (pick : List String → List String) (oracle : Nat → Nat → Option String) :
    ∀ (n start : Nat) (st : RunState), 0 < n →
      (processFrom answers tq tags pick oracle start n st).checkpoint
        = ((start + n - 1 : Nat) : Int) := by
  intro n
  induction n with
  | zero => intro start st h; omega
  | succ m ih =>
    intro start st _
    by_cases hm : 0 < m
    · simp only [processFrom]
      rw [ih (start + 1) _ hm]
      congr 1
      omega
    · have hm0 : m = 0 := by omega
      subst hm0
      simp [processFrom, applyItem]

theorem processItem_write (answers : String → Option String)
    (tq : String → List String) (pick : List String → List String)
    (oracle : Nat → Option String) (tag : String)
    (w : String × List (List String))
    (h : (processItem answers tq pick oracle tag).write = some w) :
    ∃ l, generate_questions_with_gpt5 oracle = some l ∧ l.length = targetCount ∧
      w = (tag, save_individual_csv tag l) := by
  unfold processItem at h
  cases hA : answers tag with
  | none => rw [hA] at h; simp at h
  | some ans =>
    rw [hA] at h
    simp only at h
    split at h
    · simp at h
    · cases hG : generate_questions_with_gpt5 oracle with
      | none => rw [hG] at h; simp at h
      | some l =>
        rw [hG] at h
        simp only at h
        split at h
        · rename_i hcond
          simp at h
          exact ⟨l, rfl, hcond.2, h.symm⟩
        · simp at h

theorem processFrom_writes (answers : String → Option String)
    (tq : String → List String) (tags : List String)
    (pick : List String → List String) (oracle : Nat → Nat → Option String) :
    ∀ (n start : Nat) (st : RunState) (w : String × List (List String)),
      w ∈ (processFrom answers tq tags pick oracle start n st).writes →
      w ∈ st.writes ∨ ∃ i l, generate_questions_with_gpt5 (oracle i) = some l ∧
        l.length = targetCount ∧ w = (tags.getD i "", save_individual_csv (tags.getD i "") l) := by
  intro n
  induction n with
  | zero => intro start st w hw; exact Or.inl hw
  | succ m ih =>
    intro start st w hw
    simp only [processFrom] at hw
    rcases ih (start + 1) _ w hw with h | h
    · simp only [applyItem, List.mem_append] at h
      rcases h with h | h
      · exact Or.inl h
      · right
        cases hW : (processItem answers tq pick (oracle start) (tags.getD start "")).write with
        | none => rw [hW] at h; simp at h
        | some w0 =>
          rw [hW] at h
          simp at h
          subst h
          obtain ⟨l, hg, hlen, hw0⟩ := processItem_write _ _ _ _ _ _ hW
          exact ⟨start, l, hg, hlen, hw0⟩
    · exact Or.inr h

theorem computeStartIndex_of_lt {k M : Nat} (h : k + 1 < M) :
    computeStartIndex (k : Int) M = (k + 1, (k : Int)) := by
  unfold computeStartIndex
  rw [if_neg (by omega)]
  simp only [Prod.mk.injEq]
  refine ⟨by omega, by simp⟩

/-- Core resume property: with a stored checkpoint `k` satisfying
`k + 1 < M`, the run processes exactly the ordinals `k+1 .. M-1` and
every Generation Client invocation is at an ordinal above `k`. -/
theorem run_resume_core (env : Env) (k : Nat)
    (hk : k + 1 < (get_unique_tags_from_questions env.qrows).length) :
    (run_paraphrase_generation env (k : Int)).processed =
      List.range' (k + 1) ((get_unique_tags_from_questions env.qrows).length - (k + 1)) ∧
    ∀ i ∈ (run_paraphrase_generation env (k : Int)).genCalls, k < i := by
  unfold run_paraphrase_generation
  simp only [computeStartIndex_of_lt hk]
  constructor
  · rw [processFrom_processed]
    simp [initState]
  · intro i hi
    rcases processFrom_genCalls _ _ _ _ _ _ _ _ i hi with h | h
    · simp [initState] at h
    · omega

/-!
### Claim theorems: Orchestrator
-/

/-- C2 (counterexample): on a work list of size M = 2 with stored
checkpoint k = 1 = M-1 (a checkpoint a completed previous run leaves
behind), the re-invocation does not begin at ordinal k+1 = 2: the
stale-checkpoint reset makes it restart, reprocessing ordinals 0 and 1
and re-invoking the Generation Client at ordinal 0 ≤ k. -/
theorem run_restart_at_last_ordinal_counterexample :
    (run_paraphrase_generation
        ⟨[⟨"qa", "a"⟩, ⟨"qb", "b"⟩], [⟨"a", "ansa"⟩, ⟨"b", "ansb"⟩],
          fun _ _ => none, id⟩ 1).processed = [0, 1] ∧
    (run_paraphrase_generation
        ⟨[⟨"qa", "a"⟩, ⟨"qb", "b"⟩], [⟨"a", "ansa"⟩, ⟨"b", "ansb"⟩],
          fun _ _ => none, id⟩ 1).genCalls = [0, 1] ∧
    ¬ (∀ i ∈ (run_paraphrase_generation
        ⟨[⟨"qa", "a"⟩, ⟨"qb", "b"⟩], [⟨"a", "ansa"⟩, ⟨"b", "ansb"⟩],
          fun _ _ => none, id⟩ 1).genCalls, ¬ i ≤ 1) := by
  decide

/-- C2 (amended): for every work list of size M and checkpoint ordinal
k with 0 ≤ k ≤ M-2 stored by a previous run, a re-invocation begins
processing at ordinal k+1 — it processes exactly ordinals k+1 .. M-1 —
and never re-invokes the Generation Client for any ordinal ≤ k.  (At
k = M-1 the stale-checkpoint reset fires instead and the run
restarts from ordinal 0.) -/
theorem run_resumes_after_checkpoint (env : Env) (k : Nat)
    (hk : k + 1 < (get_unique_tags_from_questions env.qrows).length) :
    (run_paraphrase_generation env (k : Int)).processed =
      List.range' (k + 1) ((get_unique_tags_from_questions env.qrows).length - (k + 1)) ∧
    ∀ i ∈ (run_paraphrase_generation env (k : Int)).genCalls, ¬ i ≤ k := by
  obtain ⟨h1, h2⟩ := run_resume_core env k hk
  exact ⟨h1, fun i hi => by have := h2 i hi; omega⟩

theorem run_resumes_after_checkpoint_witness :
    (0 + 1 < (get_unique_tags_from_questions
        [⟨"qa", "a"⟩, ⟨"qb", "b"⟩, ⟨"qc", "c"⟩]).length) ∧
    ((run_paraphrase_generation
        ⟨[⟨"qa", "a"⟩, ⟨"qb", "b"⟩, ⟨"qc", "c"⟩], [⟨"a", "ansa"⟩],
          fun _ _ => none, id⟩ (0 : Nat)).processed =
      List.range' (0 + 1) ((get_unique_tags_from_questions
        [⟨"qa", "a"⟩, ⟨"qb", "b"⟩, ⟨"qc", "c"⟩]).length - (0 + 1))) := by
  refine ⟨by decide, ?_⟩
  exact (run_resumes_after_checkpoint
    ⟨[⟨"qa", "a"⟩, ⟨"qb", "b"⟩, ⟨"qc", "c"⟩], [⟨"a", "ansa"⟩],
      fun _ _ => none, id⟩ 0 (by decide)).1

/-- C5: for a work list of size M, if the checkpoint store reports
ordinal k with k < M-1 (i.e. k+1 < M) before a run, the orchestrator
does not invoke the Generation Client for any ordinal ≤ k, and the
processing of that run begins at ordinal k+1. -/
theorem no_generation_below_checkpoint (env : Env) (k : Nat)
    (hk : k + 1 < (get_unique_tags_from_questions env.qrows).length) :
    (∀ i ∈ (run_paraphrase_generation env (k : Int)).genCalls, ¬ i ≤ k) ∧
    (run_paraphrase_generation env (k : Int)).processed.head? = some (k + 1) := by
  obtain ⟨h1, h2⟩ := run_resume_core env k hk
  constructor
  · exact fun i hi => by have := h2 i hi; omega
  · rw [h1]
    have : 0 < (get_unique_tags_from_questions env.qrows).length - (k + 1) := by omega
    cases hE : (get_unique_tags_from_questions env.qrows).length - (k + 1) with
    | zero => omega
    | succ m => simp [List.range'_succ]

theorem no_generation_below_checkpoint_witness :
    (0 + 1 < (get_unique_tags_from_questions
        [⟨"qa", "a"⟩, ⟨"qb", "b"⟩, ⟨"qc", "c"⟩]).length) ∧
    ((run_paraphrase_generation
        ⟨[⟨"qa", "a"⟩, ⟨"qb", "b"⟩, ⟨"qc", "c"⟩], [⟨"b", "ansb"⟩],
          fun _ _ => none, id⟩ (0 : Nat)).processed.head? = some (0 + 1)) := by
  refine ⟨by decide, ?_⟩
  exact (no_generation_below_checkpoint
    ⟨[⟨"qa", "a"⟩, ⟨"qb", "b"⟩, ⟨"qc", "c"⟩], [⟨"b", "ansb"⟩],
      fun _ _ => none, id⟩ 0 (by decide)).2

/-- C6: if the stored checkpoint plus one is at least the current
work-list size, the next run resets the stored progress value to -1
and starts processing at ordinal 0, processing the whole list rather
than stepping past its end. -/
theorem stale_checkpoint_reset (env : Env) (stored : Int)
    (h : stored + 1 ≥ ((get_unique_tags_from_questions env.qrows).length : Int)) :
    computeStartIndex stored (get_unique_tags_from_questions env.qrows).length = (0, -1) ∧
    (run_paraphrase_generation env stored).processed =
      List.range' 0 (get_unique_tags_from_questions env.qrows).length := by
  have hc : computeStartIndex stored (get_unique_tags_from_questions env.qrows).length
      = (0, -1) := by
    unfold computeStartIndex
    rw [if_pos h]
  refine ⟨hc, ?_⟩
  unfold run_paraphrase_generation
  simp only [hc]
  rw [processFrom_processed]
  simp [initState]

theorem stale_checkpoint_reset_witness :
    ((5 : Int) + 1 ≥ ((get_unique_tags_from_questions
        [⟨"qa", "a"⟩, ⟨"qb", "b"⟩]).length : Int)) ∧
    ((run_paraphrase_generation
        ⟨[⟨"qa", "a"⟩, ⟨"qb", "b"⟩], [⟨"a", "ansa"⟩], fun _ _ => none, id⟩ 5).processed =
      List.range' 0 (get_unique_tags_from_questions [⟨"qa", "a"⟩, ⟨"qb", "b"⟩]).length) := by
  refine ⟨by decide, ?_⟩
  exact (stale_checkpoint_reset
    ⟨[⟨"qa", "a"⟩, ⟨"qb", "b"⟩], [⟨"a", "ansa"⟩], fun _ _ => none, id⟩ 5 (by decide)).2

/-- C7: after the orchestrator finishes processing the work item at
ordinal j — whatever its outcome, since every branch of the loop body
records the same progress update — the stored checkpoint equals j; and
processing ordinals 0..j from a fresh state leaves the checkpoint at
j. -/
theorem checkpoint_equals_last_processed (env : Env) (j : Nat)
    (hj : j < (get_unique_tags_from_questions env.qrows).length) :
    (∀ (r : ItemResult) (st : RunState), (applyItem j r st).checkpoint = (j : Int)) ∧
    (processFrom (load_answers_lookup env.arows) (load_example_questions env.qrows)
        (get_unique_tags_from_questions env.qrows) env.pick env.oracle 0 (j + 1)
        (initState (-1))).checkpoint = (j : Int) := by
  refine ⟨fun r st => rfl, ?_⟩
  rw [processFrom_checkpoint _ _ _ _ _ (j + 1) 0 _ (Nat.succ_pos j)]
  congr 1
  omega

theorem checkpoint_equals_last_processed_witness :
    (1 < (get_unique_tags_from_questions [⟨"qa", "a"⟩, ⟨"qb", "b"⟩]).length) ∧
    ((processFrom (load_answers_lookup [⟨"a", "ansa"⟩])
        (load_example_questions [⟨"qa", "a"⟩, ⟨"qb", "b"⟩])
        (get_unique_tags_from_questions [⟨"qa", "a"⟩, ⟨"qb", "b"⟩]) id (fun _ _ => none) 0 2
        (initState (-1))).checkpoint = (1 : Int)) := by
  refine ⟨by decide, ?_⟩
  exact (checkpoint_equals_last_processed
    ⟨[⟨"qa", "a"⟩, ⟨"qb", "b"⟩], [⟨"a", "ansa"⟩], fun _ _ => none, id⟩ 1 (by decide)).2

/-- C4: no artifact is written for a work item unless the Generation
Client returned a list of exactly 200 entries; on failure or shortfall
nothing is persisted, and on success the artifact is a header row
followed by exactly 200 (text, tag) data rows.  The second conjunct
lifts this to whole runs: every artifact written during any run has
that exact shape. -/
theorem artifact_atomicity :
    (∀ (answers : String → Option String) (tq : String → List String)
        (pick : List String → List String) (oracle : Nat → Option String) (tag : String),
      (processItem answers tq pick oracle tag).write = none ∨
      ∃ l, generate_questions_with_gpt5 oracle = some l ∧ l.length = targetCount ∧
        (processItem answers tq pick oracle tag).write =
          some (tag, ["question", "tag"] :: l.map fun q => [q, tag])) ∧
    (∀ (env : Env) (stored : Int) (w : String × List (List String)),
      w ∈ (run_paraphrase_generation env stored).writes →
      ∃ l : List String, l.length = targetCount ∧
        w.2 = ["question", "tag"] :: l.map fun q => [q, w.1]) := by
  constructor
  · intro answers tq pick oracle tag
    cases hW : (processItem answers tq pick oracle tag).write with
    | none => exact Or.inl rfl
    | some w =>
      obtain ⟨l, hg, hlen, hw⟩ := processItem_write _ _ _ _ _ _ hW
      refine Or.inr ⟨l, hg, hlen, ?_⟩
      rw [hw]
      rfl
  · intro env stored w hw
    unfold run_paraphrase_generation at hw
    rcases processFrom_writes _ _ _ _ _ _ _ _ _ hw with h | h
    · simp [initState] at h
    · obtain ⟨i, l, _, hlen, hw0⟩ := h
      refine ⟨l, hlen, ?_⟩
      rw [hw0]
      rfl

theorem artifact_atomicity_witness :
    (("a", ["question", "tag"] :: (List.replicate 200 "x").map fun q => [q, "a"]) ∈
      (run_paraphrase_generation
        ⟨[⟨"hi", "a"⟩], [⟨"a", "ans"⟩],
          (fun _ _ => some (String.intercalate "\n" (List.replicate 200 "x"))), id⟩
        (-1)).writes) ∧
    (∃ l : List String, l.length = targetCount ∧
      (("a", ["question", "tag"] :: (List.replicate 200 "x").map fun q => [q, "a"]) :
          String × List (List String)).2 =
        ["question", "tag"] :: l.map fun q =>
          [q, (("a", ["question", "tag"] :: (List.replicate 200 "x").map fun q2 => [q2, "a"]) :
            String × List (List String)).1]) := by
  refine ⟨by decide, ?_⟩
  exact artifact_atomicity.2
    ⟨[⟨"hi", "a"⟩], [⟨"a", "ans"⟩],
      (fun _ _ => some (String.intercalate "\n" (List.replicate 200 "x"))), id⟩
    (-1) _ (by decide)

/-!
### Lemmas about Merge & Validate
-/

theorem merge_foldl_eq (files : List (List Row)) :
    ∀ acc : List Row,
      files.foldl (fun acc rows => if rows ≠ [] then acc ++ rows else acc) acc
        = acc ++ files.flatten := by
  induction files with
  | nil => intro acc; simp
  | cons f fs ih =>
    intro acc
    simp only [List.foldl_cons, List.flatten_cons]
    rw [ih]
    by_cases hf : f = []
    · subst hf; simp
    · simp [hf, List.append_assoc]

theorem merge_csv_files_eq (files : List (List Row)) :
    merge_csv_files files = (files.flatten, files.flatten.length) := by
  unfold merge_csv_files
  rw [merge_foldl_eq]
  simp

theorem artifactRows_map_snd (qf : Nat → String) (t : String) (n : Nat) :
    (artifactRows qf t n).map (fun r => r.2) = List.replicate n t := by
  rw [List.eq_replicate_iff]
  constructor
  · simp [artifactRows]
  · intro b hb
    simp only [artifactRows, List.map_map, List.mem_map] at hb
    obtain ⟨j, _, rfl⟩ := hb
    rfl

theorem count_flatten_replicate (cnt : String → Nat) :
    ∀ (tagsL : List String) (x : String), tagsL.Nodup → x ∈ tagsL →
      ((tagsL.map fun t => List.replicate (cnt t) t).flatten).count x = cnt x := by
  intro tagsL
  induction tagsL with
  | nil => intro x _ hx; cases hx
  | cons a tl ih =>
    intro x hnd hx
    simp only [List.map_cons, List.flatten_cons, List.count_append]
    rcases List.mem_cons.mp hx with rfl | hx
    · rw [List.count_replicate_self]
      have h0 : ((tl.map fun t => List.replicate (cnt t) t).flatten).count x = 0 := by
        rw [List.count_eq_zero]
        intro hmem
        rcases List.mem_flatten.mp hmem with ⟨l, hl, hxl⟩
        rcases List.mem_map.mp hl with ⟨t, ht, rfl⟩
        exact (List.nodup_cons.mp hnd).1 ((List.eq_of_mem_replicate hxl) ▸ ht)
      rw [h0]
      omega
    · have hne : x ≠ a := fun he => (List.nodup_cons.mp hnd).1 (he ▸ hx)
      have h0 : List.count x (List.replicate (cnt a) a) = 0 := by
        rw [List.count_eq_zero]
        intro hmem
        exact hne (List.eq_of_mem_replicate hmem)
      rw [h0, ih x (List.nodup_cons.mp hnd).2 hx]
      omega

theorem pyDedupFirstAux_skip (a : String) (rest : List String) :
    ∀ (n : Nat) (seen : List String), a ∈ seen →
      pyDedupFirstAux seen (List.replicate n a ++ rest) = pyDedupFirstAux seen rest := by
  intro n
  induction n with
  | zero => intro seen _; simp
  | succ m ih =>
    intro seen ha
    simp only [List.replicate_succ, List.cons_append, pyDedupFirstAux, if_pos ha]
    exact ih seen ha

theorem pyDedupFirstAux_flatten_replicate (cnt : String → Nat) :
    ∀ (tagsL : List String) (seen : List String), tagsL.Nodup →
      (∀ t ∈ tagsL, 0 < cnt t) → (∀ t ∈ tagsL, t ∉ seen) →
      pyDedupFirstAux seen ((tagsL.map fun t => List.replicate (cnt t) t).flatten) = tagsL := by
  intro tagsL
  induction tagsL with
  | nil => intro seen _ _ _; rfl
  | cons a tl ih =>
    intro seen hnd hpos hseen
    obtain ⟨n, hn⟩ : ∃ n, cnt a = n + 1 :=
      ⟨cnt a - 1, by have := hpos a (by simp); omega⟩
    simp only [List.map_cons, List.flatten_cons]
    rw [hn, List.replicate_succ, List.cons_append]
    simp only [pyDedupFirstAux]
    rw [if_neg (hseen a (by simp))]
    rw [pyDedupFirstAux_skip a _ n (a :: seen) (by simp)]
    congr 1
    refine ih (a :: seen) (List.nodup_cons.mp hnd).2
      (fun t ht => hpos t (by simp [ht])) (fun t ht => ?_)
    simp only [List.mem_cons]
    push_neg
    exact ⟨fun he => (List.nodup_cons.mp hnd).1 (he ▸ ht), hseen t (by simp [ht])⟩

theorem filter_eq_singleton_of_nodup {α : Type} [DecidableEq α] :
    ∀ (l : List α) (a : α), l.Nodup → a ∈ l →
      (l.filter fun x => x = a) = [a] := by
  intro l
  induction l with
  | nil => intro a _ h; cases h
  | cons b tl ih =>
    intro a hnd ha
    by_cases hba : b = a
    · subst hba
      rw [List.filter_cons_of_pos (by simp)]
      have h0 : (tl.filter fun x => x = b) = [] := by
        rw [List.filter_eq_nil_iff]
        intro x hx
        simp only [decide_eq_true_eq]
        exact fun he => (List.nodup_cons.mp hnd).1 (he ▸ hx)
      rw [h0]
    · have ha2 : a ∈ tl := by
        rcases List.mem_cons.mp ha with h | h
        · exact absurd h.symm hba
        · exact h
      rw [List.filter_cons_of_neg (by simp [hba]), ih a (List.nodup_cons.mp hnd).2 ha2]

/-!
### Claim theorems: Merge & Validate
-/

/-- C9: run_merge hands validate_merged_file the row count the merge
itself just produced as the expected total, so the total-row check
compares the output (re-reading is modelled as the identity) against
its own size and always passes; no independently expected total is
involved. -/
theorem merge_validates_against_own_count (files : List (List Row))
    (m : List Row) (rep : ValidationReport)
    (h : run_merge files = some (m, rep)) :
    rep = validate_merged_file m m.length ∧
    rep.row_count_ok = true ∧
    rep.actual_count = m.length := by
  unfold run_merge at h
  split at h
  · simp at h
  · rw [merge_csv_files_eq] at h
    simp only [Option.some.injEq, Prod.mk.injEq] at h
    obtain ⟨hm, hrep⟩ := h
    subst hm
    subst hrep
    exact ⟨rfl, by simp [validate_merged_file], rfl⟩

theorem merge_validates_against_own_count_witness :
    (run_merge [[("q", "t")]] =
      some ([("q", "t")], validate_merged_file [("q", "t")] 1)) ∧
    (validate_merged_file [("q", "t")] 1).row_count_ok = true := by
  have h : run_merge [[("q", "t")]] =
      some ([("q", "t")], validate_merged_file [("q", "t")] 1) := by decide
  exact ⟨h, (merge_validates_against_own_count [[("q", "t")]] _ _ h).2.1⟩

/-- C1 (counterexample): with the per-tag target N = 200 the claim
describes, one artifact of 199 rows for tag a and one of 200 rows for
tag b, validate_merged_file flags BOTH tags (neither count equals the
hard-coded 10), not exactly the short one. -/
theorem validate_flags_wrong_tags_counterexample :
    (validate_merged_file
        (merge_csv_files [List.replicate 199 ("q", "a"), List.replicate 200 ("q", "b")]).1
        (merge_csv_files [List.replicate 199 ("q", "a"),
          List.replicate 200 ("q", "b")]).2).tags_with_wrong_count
      = ["a", "b"] ∧
    (validate_merged_file
        (merge_csv_files [List.replicate 199 ("q", "a"), List.replicate 200 ("q", "b")]).1
        (merge_csv_files [List.replicate 199 ("q", "a"),
          List.replicate 200 ("q", "b")]).2).tags_with_wrong_count
      ≠ ["a"] := by
  refine ⟨by decide, by decide⟩

/-- C1 (amended): the per-tag occurrence check of validate_merged_file
compares every tag against the hard-coded count 10, not against a
per-run expected count.  For the per-tag target 10: if exactly one
artifact contributed 9 = 10-1 rows for its tag and every other
artifact contributed exactly 10 rows for its own distinct tag, the
validation flags exactly the short tag and no other. -/
theorem validate_flags_exactly_short_tag (tagsL : List String) (t0 : String)
    (qf : String → Nat → String) (hnd : tagsL.Nodup) (hmem : t0 ∈ tagsL) :
    (validate_merged_file
        (merge_csv_files (tagsL.map fun t =>
          artifactRows (qf t) t
            (if t = t0 then validatePerTagCount - 1 else validatePerTagCount))).1
        (merge_csv_files (tagsL.map fun t =>
          artifactRows (qf t) t
            (if t = t0 then validatePerTagCount - 1 else validatePerTagCount))).2).tags_with_wrong_count
      = [t0] := by
  rw [merge_csv_files_eq]
  set cnt : String → Nat :=
    fun t => if t = t0 then validatePerTagCount - 1 else validatePerTagCount with hcnt
  have hsnd : ∀ L : List String,
      ((L.map fun t => artifactRows (qf t) t (cnt t)).flatten.map fun r => r.2)
        = (L.map fun t => List.replicate (cnt t) t).flatten := by
    intro L
    induction L with
    | nil => rfl
    | cons a tl ihL =>
      simp only [List.map_cons, List.flatten_cons, List.map_append, ihL]
      rw [artifactRows_map_snd]
  have hpos : ∀ t ∈ tagsL, 0 < cnt t := by
    intro t _
    by_cases ht : t = t0 <;> simp [hcnt, ht, validatePerTagCount]
  simp only [validate_merged_file, hsnd tagsL]
  rw [pyDedupFirst, pyDedupFirstAux_flatten_replicate cnt tagsL [] hnd hpos (by simp)]
  rw [List.filter_congr (fun t ht => ?side)]
  case side =>
    show _ = decide (t = t0)
    rw [count_flatten_replicate cnt tagsL t hnd ht]
    by_cases heq : t = t0 <;>
      simp [hcnt, heq, validatePerTagCount]
  exact filter_eq_singleton_of_nodup tagsL t0 hnd hmem

theorem validate_flags_exactly_short_tag_witness :
    (["a", "b"] : List String).Nodup ∧ "a" ∈ (["a", "b"] : List String) ∧
    (validate_merged_file
        (merge_csv_files ((["a", "b"] : List String).map fun t =>
          artifactRows (fun _ => "q") t
            (if t = "a" then validatePerTagCount - 1 else validatePerTagCount))).1
        (merge_csv_files ((["a", "b"] : List String).map fun t =>
          artifactRows (fun _ => "q") t
            (if t = "a" then validatePerTagCount - 1 else validatePerTagCount))).2).tags_with_wrong_count
      = ["a"] := by
  refine ⟨by decide, by decide, ?_⟩
  exact validate_flags_exactly_short_tag ["a", "b"] "a" (fun _ _ => "q")
    (by decide) (by decide)

/-!
### Lemmas about the Example Store
-/

theorem mem_insertSorted (a x : String) :
    ∀ l : List String, x ∈ insertSorted a l ↔ x = a ∨ x ∈ l := by
  intro l
  induction l with
  | nil => simp [insertSorted]
  | cons b tl ih =>
    simp only [insertSorted]
    split
    · simp [List.mem_cons]
    · simp only [List.mem_cons, ih]
      tauto

theorem mem_sortCaseInsensitive (x : String) :
    ∀ l : List String, x ∈ sortCaseInsensitive l ↔ x ∈ l := by
  intro l
  induction l with
  | nil => simp [sortCaseInsensitive]
  | cons b tl ih =>
    show x ∈ insertSorted b (sortCaseInsensitive tl) ↔ _
    rw [mem_insertSorted, ih]
    simp [List.mem_cons]

theorem mem_pyDedupFirstAux {α : Type} [DecidableEq α] (x : α) :
    ∀ (l seen : List α), x ∈ pyDedupFirstAux seen l ↔ (x ∈ l ∧ x ∉ seen) := by
  intro l
  induction l with
  | nil => intro seen; simp [pyDedupFirstAux]
  | cons a tl ih =>
    intro seen
    simp only [pyDedupFirstAux]
    split
    · rename_i ha
      rw [ih seen]
      simp only [List.mem_cons]
      constructor
      · rintro ⟨h1, h2⟩
        exact ⟨Or.inr h1, h2⟩
      · rintro ⟨h1 | h1, h2⟩
        · exact absurd (h1 ▸ ha) h2
        · exact ⟨h1, h2⟩
    · rename_i ha
      simp only [List.mem_cons, ih (a :: seen)]
      constructor
      · rintro (rfl | ⟨h1, h2⟩)
        · exact ⟨Or.inl rfl, ha⟩
        · push_neg at h2
          exact ⟨Or.inr h1, h2.2⟩
      · rintro ⟨h1 | h1, h2⟩
        · exact Or.inl h1
        · by_cases hxa : x = a
          · exact Or.inl hxa
          · refine Or.inr ⟨h1, ?_⟩
            simp [List.mem_cons, hxa, h2]

theorem mem_pyDedupFirst {α : Type} [DecidableEq α] (x : α) (l : List α) :
    x ∈ pyDedupFirst l ↔ x ∈ l := by
  rw [pyDedupFirst, mem_pyDedupFirstAux]
  simp

/-!
### Claim theorems: Example Store
-/

/-- C10 (counterexample): the claim fails as stated when the stripped
form of a whitespace-carrying tag also occurs verbatim as another row
tag: the example lookup for that work item is then non-empty and the
item does not end SKIPPED (here it ends FAILED after the Generation
Client fails). -/
theorem whitespace_tag_counterexample :
    pyStrip " voting " ≠ " voting " ∧
    load_example_questions [⟨"q1", " voting "⟩, ⟨"q2", "voting"⟩] (pyStrip " voting ") ≠ [] ∧
    (processItem (load_answers_lookup [⟨"voting", "ans"⟩])
        (load_example_questions [⟨"q1", " voting "⟩, ⟨"q2", "voting"⟩]) id (fun _ => none)
        (pyStrip " voting ")).outcome ≠ .skipped := by
  decide

/-- C10 (amended): for an examples-source row whose tag carries
surrounding whitespace — provided the stripped tag is non-empty, is
not the excluded sentinel, the question is non-blank, and the stripped
form does not itself occur verbatim as any row tag — the work list
contains the stripped tag while the example index is keyed by the raw
tag, so the lookup under the stripped tag is empty and the work item
for the stripped tag ends SKIPPED, whatever the answers, sampling and
service behaviour. -/
theorem whitespace_tag_mismatch_skips (rows : List QRow) (r : QRow)
    (answers : String → Option String) (pick : List String → List String)
    (oracle : Nat → Option String)
    (hr : r ∈ rows) (hws : pyStrip r.tag ≠ r.tag) (hne : pyStrip r.tag ≠ "")
    (hfr : pyStrip r.tag ≠ "fraction") (hq : pyStrip r.question ≠ "")
    (hnok : ∀ q ∈ rows, q.tag ≠ pyStrip r.tag) :
    pyStrip r.tag ∈ get_unique_tags_from_questions rows ∧
    load_example_questions rows r.tag ≠ [] ∧
    load_example_questions rows (pyStrip r.tag) = [] ∧
    (processItem answers (load_example_questions rows) pick oracle (pyStrip r.tag)).outcome
      = .skipped := by
  have hfr2 : r.tag ≠ "fraction" := by
    intro he
    rw [he] at hws
    exact hws (by decide)
  have h3 : load_example_questions rows (pyStrip r.tag) = [] := by
    unfold load_example_questions
    rw [List.filter_eq_nil_iff.mpr]
    · rfl
    · intro q hq2
      simp only [decide_eq_true_eq, not_and]
      intro _ _
      exact hnok q hq2
  refine ⟨?_, ?_, h3, ?_⟩
  · unfold get_unique_tags_from_questions
    rw [mem_sortCaseInsensitive, mem_pyDedupFirst, List.mem_filter]
    exact ⟨List.mem_map.mpr ⟨r, hr, rfl⟩, by simp [hne, hfr]⟩
  · unfold load_example_questions
    intro hcontra
    rw [List.map_eq_nil_iff] at hcontra
    have : r ∈ rows.filter fun q =>
        q.tag ≠ "fraction" ∧ pyStrip q.question ≠ "" ∧ q.tag = r.tag :=
      List.mem_filter.mpr ⟨hr, by simp [hfr2, hq]⟩
    rw [hcontra] at this
    cases this
  · unfold processItem
    cases hA : answers (pyStrip r.tag) with
    | none => rfl
    | some ans =>
      simp only [get_random_examples, h3, if_pos rfl]
      rfl

theorem whitespace_tag_mismatch_skips_witness :
    ((⟨"hello", " voting "⟩ : QRow) ∈ ([⟨"hello", " voting "⟩] : List QRow)) ∧
    pyStrip " voting " ≠ " voting " ∧ pyStrip " voting " ≠ "" ∧
    pyStrip " voting " ≠ "fraction" ∧ pyStrip "hello" ≠ "" ∧
    (∀ q ∈ ([⟨"hello", " voting "⟩] : List QRow), q.tag ≠ pyStrip " voting ") ∧
    pyStrip " voting " ∈ get_unique_tags_from_questions [⟨"hello", " voting "⟩] ∧
    load_example_questions [⟨"hello", " voting "⟩] (pyStrip " voting ") = [] ∧
    (processItem (fun _ => some "ans") (load_example_questions [⟨"hello", " voting "⟩])
        id (fun _ => none) (pyStrip " voting ")).outcome = .skipped := by
  have h := whitespace_tag_mismatch_skips [⟨"hello", " voting "⟩] ⟨"hello", " voting "⟩
    (fun _ => some "ans") id (fun _ => none)
    (by decide) (by decide) (by decide) (by decide) (by decide) (by decide)
  exact ⟨by decide, by decide, by decide, by decide, by decide, by decide,
    h.1, h.2.2.1, h.2.2.2⟩

end Pipeline
